import Mathlib

/-!
Verification development for the artist-portfolio application's core
components: the identity-reconciliation layer (`hashStringToNumber`,
`normalizeId`), the NeDB document-store adapter and the admin route
handlers built on it, and the static-site rebuild orchestrator
(`triggerRebuild`).  Each definition is a shallow embedding of the
corresponding TypeScript function; theorems settle the specification
claims against these embeddings.
-/

/-! ## Identity layer: `hashStringToNumber` (server/routes, lines 104-113)

The JS source folds UTF-16 code units into a running accumulator:
`hash = ((hash << 5) - hash) + char; hash = hash & hash;`
Both `<< 5` and `& hash` coerce through 32-bit signed integers (ToInt32),
and the final result is `Math.abs(hash)`.  We model JS ToInt32 explicitly
over `Int`.  Strings here are sequences of code units; the ids being
hashed (NeDB 16-char keys, Mongo ObjectId hex strings) are ASCII, where
Lean `Char.toNat` coincides with `charCodeAt`.
-/

/-- JavaScript ToInt32: wrap an integer into the range `[-2^31, 2^31)`. -/
def toInt32 (n : Int) : Int :=
  (n + 2147483648) % 4294967296 - 2147483648

/-- One iteration of the hash loop:
`hash = ((hash << 5) - hash) + char; hash = hash & hash;`
(`hash << 5` is a 32-bit shift, i.e. `toInt32 (hash * 32)`; the
self-mask `hash & hash` is ToInt32 of the intermediate sum). -/
def hashStep (hash : Int) (c : Nat) : Int :=
  toInt32 (toInt32 (hash * 32) - hash + (c : Int))

/-- The signed 32-bit accumulator after folding the whole string. -/
def hashAccum (s : String) : Int :=
  s.data.foldl (fun h ch => hashStep h ch.toNat) 0

/-- `hashStringToNumber` from the source: fold, then `Math.abs`. -/
def hashStringToNumber (s : String) : Int :=
  |hashAccum s|

theorem toInt32_lb (n : Int) : -2147483648 ≤ toInt32 n := by
  have h := Int.emod_nonneg (n + 2147483648) (by norm_num : (4294967296 : Int) ≠ 0)
  unfold toInt32
  omega

theorem toInt32_ub (n : Int) : toInt32 n < 2147483648 := by
  have h := Int.emod_lt_of_pos (n + 2147483648) (by norm_num : (0 : Int) < 4294967296)
  unfold toInt32
  omega

theorem hashStep_lb (h : Int) (c : Nat) : -2147483648 ≤ hashStep h c :=
  toInt32_lb _

theorem hashStep_ub (h : Int) (c : Nat) : hashStep h c < 2147483648 :=
  toInt32_ub _

theorem hashAccum_range (s : String) :
    -2147483648 ≤ hashAccum s ∧ hashAccum s < 2147483648 := by
  unfold hashAccum
  generalize s.data = l
  have aux : ∀ (l : List Char) (h : Int),
      -2147483648 ≤ h → h < 2147483648 →
      -2147483648 ≤ l.foldl (fun h ch => hashStep h ch.toNat) h ∧
        l.foldl (fun h ch => hashStep h ch.toNat) h < 2147483648 := by
    intro l
    induction l with
    | nil => intro h h1 h2; exact ⟨h1, h2⟩
    | cons c rest ih =>
        intro h _ _
        simpa using ih (hashStep h c.toNat) (hashStep_lb h c.toNat) (hashStep_ub h c.toNat)
  exact aux l 0 (by norm_num) (by norm_num)

/-- C6 (counterexample): the claim says the hash "returns a positive
integer" for every input string, but the empty string folds to the
accumulator `0`, and `Math.abs 0 = 0` is not positive. -/
theorem hashStringToNumber_empty_not_positive :
    hashStringToNumber "" = 0 ∧ ¬ (0 < hashStringToNumber "") := by
  constructor
  · rfl
  · intro h
    simp [hashStringToNumber, hashAccum] at h

/-- C6 (amended): for every input string, `hashStringToNumber` returns a
non-negative integer of at most `2^31` — it lies in the 32-bit-derived id
space, but can be `0` (e.g. on the empty string), so it is non-negative
rather than strictly positive. -/
theorem hashStringToNumber_range (s : String) :
    0 ≤ hashStringToNumber s ∧ hashStringToNumber s ≤ 2147483648 := by
  obtain ⟨h1, h2⟩ := hashAccum_range s
  unfold hashStringToNumber
  constructor
  · exact abs_nonneg _
  · rw [abs_le]
    omega

/-! ## Document model and `normalizeId` (server/routes, lines 115-139)

Documents are JS objects; we model them as association lists from field
names to values, with JS lookup semantics (`getField` returns the first
binding).  `truthy` models JS truthiness for the values that occur
(`0`, `""`, `false`, `NaN` and absent fields are falsy).
-/

/-- A JS value stored in a document field. -/
inductive Val where
  | vInt (n : Int)
  | vStr (s : String)
  | vBool (b : Bool)
  | vNaN
deriving DecidableEq, Repr

/-- A document: a JS object as an association list (first binding wins). -/
abbrev Doc := List (String × Val)

def getField (d : Doc) (k : String) : Option Val :=
  (d.find? (fun kv => kv.1 == k)).map (fun kv => kv.2)

def setField (d : Doc) (k : String) (v : Val) : Doc :=
  (k, v) :: d

/-- JS truthiness of a possibly-absent field value. -/
def truthy : Option Val → Bool
  | none => false
  | some (.vInt n) => n != 0
  | some (.vStr s) => s != ""
  | some (.vBool b) => b
  | some .vNaN => false

/-- JS `typeof x === "string"` on a field value. -/
def isStringVal : Option Val → Bool
  | some (.vStr _) => true
  | _ => false

/-- JS `.toString()` for the value kinds in the model (for Mongo, the
native id's string form). -/
def valToString : Val → String
  | .vStr s => s
  | .vInt n => toString n
  | .vBool b => if b then "true" else "false"
  | .vNaN => "NaN"

/-- Longest leading run of decimal digits, accumulated as a number
(stops at the first non-digit, as `parseInt` does). -/
def parseDigits : List Char → Nat → Nat
  | [], acc => acc
  | c :: rest, acc =>
      if c.isDigit then parseDigits rest (acc * 10 + (c.toNat - 48)) else acc

/-- JS `parseInt(s, 10)`: skip leading whitespace, optional sign, longest
digit run; `NaN` when no digit follows. -/
def jsParseInt (s : String) : Val :=
  match s.data.dropWhile (fun c => c.isWhitespace) with
  | '-' :: rest =>
      match rest with
      | c :: _ => if c.isDigit then .vInt (-(parseDigits rest 0 : Int)) else .vNaN
      | [] => .vNaN
  | '+' :: rest =>
      match rest with
      | c :: _ => if c.isDigit then .vInt ((parseDigits rest 0 : Int)) else .vNaN
      | [] => .vNaN
  | cs =>
      match cs with
      | c :: _ => if c.isDigit then .vInt ((parseDigits cs 0 : Int)) else .vNaN
      | [] => .vNaN

/-- `normalizeId` from the source.  NeDB branch: when the numeric `id` is
missing (falsy) and `_id` is present, set `id` to the hash of the native
`_id` string; a legacy string-typed `id` is converted with `parseInt`.
Mongo branch: when `_id` is present and `id` missing, set `id` to the
hash of `_id.toString()`.  (The NeDB native `_id` is always a string; a
non-string `_id` is outside the modelled domain and left unchanged.) -/
def normalizeId (usingNeDB : Bool) (d : Doc) : Doc :=
  if usingNeDB then
    if !truthy (getField d "id") && truthy (getField d "_id") then
      match getField d "_id" with
      | some (.vStr s) => setField d "id" (.vInt (hashStringToNumber s))
      | _ => d
    else if truthy (getField d "id") && isStringVal (getField d "id") then
      match getField d "id" with
      | some (.vStr s) => setField d "id" (jsParseInt s)
      | _ => d
    else d
  else
    if truthy (getField d "_id") && !truthy (getField d "id") then
      match getField d "_id" with
      | some v => setField d "id" (.vInt (hashStringToNumber (valToString v)))
      | none => d
    else d

theorem getField_setField (d : Doc) (k : String) (v : Val) :
    getField (setField d k v) k = some v := by
  simp [getField, setField, List.find?]

theorem normalizeId_id_eq_hash (b : Bool) (d : Doc) (s : String)
    (h₁ : getField d "_id" = some (.vStr s)) (h₂ : s ≠ "")
    (h₃ : getField d "id" = none ∨
          getField d "id" = some (.vInt (hashStringToNumber s))) :
    getField (normalizeId b d) "id" = some (.vInt (hashStringToNumber s)) := by
  have hs : (s != "") = true := by simp [h₂]
  cases b
  case false =>
    rcases h₃ with h₃ | h₃
    · simp [normalizeId, h₁, h₃, truthy, hs, valToString, getField_setField]
    · by_cases h0 : hashStringToNumber s = 0
      · simp [normalizeId, h₁, h₃, truthy, hs, h0, valToString, getField_setField]
      · simp [normalizeId, h₁, h₃, truthy, hs, h0, valToString, getField_setField]
  case true =>
    rcases h₃ with h₃ | h₃
    · simp [normalizeId, h₁, h₃, truthy, hs, getField_setField]
    · by_cases h0 : hashStringToNumber s = 0
      · simp [normalizeId, h₁, h₃, truthy, hs, h0, getField_setField]
      · simp [normalizeId, h₁, h₃, truthy, hs, h0, isStringVal]

/-- C2: for a stored record whose state is one reachable after `create`
(no numeric `id` yet, or the persisted `id` equal to the hash of its
native identifier), every read normalizes to the same numeric id — the
hash of the unchanged native identifier string — under either backend,
so two reads (in particular across restarts) always agree. -/
theorem numeric_id_stable_across_reads (b₁ b₂ : Bool) (d : Doc) (s : String)
    (h₁ : getField d "_id" = some (.vStr s)) (h₂ : s ≠ "")
    (h₃ : getField d "id" = none ∨
          getField d "id" = some (.vInt (hashStringToNumber s))) :
    getField (normalizeId b₁ d) "id" = some (.vInt (hashStringToNumber s)) ∧
    getField (normalizeId b₁ d) "id" = getField (normalizeId b₂ d) "id" := by
  have e₁ := normalizeId_id_eq_hash b₁ d s h₁ h₂ h₃
  have e₂ := normalizeId_id_eq_hash b₂ d s h₁ h₂ h₃
  exact ⟨e₁, by rw [e₁, e₂]⟩

theorem numeric_id_stable_across_reads_witness :
    getField [("_id", Val.vStr "abc")] "_id" = some (Val.vStr "abc") ∧
    ("abc" : String) ≠ "" ∧
    getField (normalizeId true [("_id", Val.vStr "abc")]) "id" =
      some (Val.vInt (hashStringToNumber "abc")) ∧
    getField (normalizeId true [("_id", Val.vStr "abc")]) "id" =
      getField (normalizeId false [("_id", Val.vStr "abc")]) "id" := by
  have h := numeric_id_stable_across_reads true false [("_id", Val.vStr "abc")]
    "abc" (by decide) (by decide) (Or.inl (by decide))
  exact ⟨by decide, by decide, h.1, h.2⟩

/-! ## NeDB store adapter and admin route handlers

The embedded backend stores each collection as a list of documents in
insertion order.  `findOne`/`update`/`remove` act on the first matching
document (NeDB single-document semantics); an update whose second
argument is a plain document replaces the stored document in full.
-/

abbrev Store := List Doc

/-- Query `{ id: n }`: the document's numeric `id` field equals `n`. -/
def docMatchesId (n : Int) (d : Doc) : Bool :=
  getField d "id" == some (.vInt n)

/-- NeDB `findOne({ id: n })`. -/
def findOneById (st : Store) (n : Int) : Option Doc :=
  st.find? (docMatchesId n)

/-- Replace the first document matching `p` with `u` (NeDB
`update(query, plainDoc, {})`). -/
def replaceFirst : Store → (Doc → Bool) → Doc → Store
  | [], _, _ => []
  | d :: rest, p, u => if p d then u :: rest else d :: replaceFirst rest p u

/-- NeDB `updateOne({ id: n }, u)` with a plain replacement document. -/
def updateOneById (st : Store) (n : Int) (u : Doc) : Store :=
  replaceFirst st (docMatchesId n) u

/-- JS object spread `{...e, ...p}`: bindings of `p` shadow those of `e`. -/
def spreadMerge (e p : Doc) : Doc := p ++ e

/-- Remove the first document matching `p` (NeDB `remove(query, {})`). -/
def removeFirst : Store → (Doc → Bool) → Store
  | [], _ => []
  | d :: rest, p => if p d then rest else d :: removeFirst rest p

theorem getField_cons (kv : String × Val) (d : Doc) (k : String) :
    getField (kv :: d) k = if kv.1 == k then some kv.2 else getField d k := by
  cases h : kv.1 == k <;> simp [getField, List.find?_cons, h]

theorem getField_spreadMerge_of_some (e p : Doc) (k : String) (v : Val)
    (h : getField p k = some v) : getField (spreadMerge e p) k = some v := by
  induction p with
  | nil => simp [getField] at h
  | cons kv rest ih =>
      rw [getField_cons] at h
      cases hk : kv.1 == k
      · rw [hk] at h
        simpa [spreadMerge, getField_cons, hk] using ih h
      · rw [hk] at h
        simp at h
        simp [spreadMerge, getField_cons, hk, h]

theorem getField_spreadMerge_of_none (e p : Doc) (k : String)
    (h : getField p k = none) : getField (spreadMerge e p) k = getField e k := by
  induction p with
  | nil => simp [spreadMerge]
  | cons kv rest ih =>
      rw [getField_cons] at h
      cases hk : kv.1 == k
      · rw [hk] at h
        simpa [spreadMerge, getField_cons, hk] using ih h
      · rw [hk] at h
        simp at h

theorem find?_replaceFirst (p : Doc → Bool) (u : Doc) (st : Store) (d : Doc)
    (h : st.find? p = some d) (hu : p u = true) :
    (replaceFirst st p u).find? p = some u := by
  induction st with
  | nil => simp [List.find?] at h
  | cons a rest ih =>
      cases hp : p a
      · rw [List.find?_cons_of_neg _ (by simp [hp])] at h
        simpa [replaceFirst, hp, List.find?_cons_of_neg _ (by simp [hp] : ¬ p a = true)]
          using ih h
      · simp [replaceFirst, hp, List.find?_cons_of_pos _ hu]

theorem mem_removeFirst (p : Doc → Bool) (st : Store) (u : Doc)
    (hu : u ∈ st) (hp : p u = false) : u ∈ removeFirst st p := by
  induction st with
  | nil => cases hu
  | cons a rest ih =>
      by_cases hpa : p a = true
      · have he : removeFirst (a :: rest) p = rest := by simp [removeFirst, hpa]
        rw [he]
        rcases List.mem_cons.mp hu with h | h
        · subst h; rw [hp] at hpa; cases hpa
        · exact h
      · have hpa' : p a = false := by simpa using hpa
        have he : removeFirst (a :: rest) p = a :: removeFirst rest p := by
          simp [removeFirst, hpa']
        rw [he]
        rcases List.mem_cons.mp hu with h | h
        · exact List.mem_cons.mpr (Or.inl h)
        · exact List.mem_cons.mpr (Or.inr (ih h))

/-- PATCH /api/admin/artworks/:id, NeDB branch (server/routes, lines
464-533): look up the record by its numeric `id` (404 when absent,
modelled as `none`), shallow-merge the request body over the existing
record, write the merged document back in full via `updateOne`, then
re-fetch by the same id and normalize for the response. -/
def patchArtworkNeDB (st : Store) (numericId : Int) (body : Doc) :
    Store × Option Doc :=
  match findOneById st numericId with
  | none => (st, none)
  | some existing =>
      let updateData := spreadMerge existing body
      let st' := updateOneById st numericId updateData
      (st', (findOneById st' numericId).map (normalizeId true))

/-- C7: updating a record through the numeric-id route is merge-then-
replace: the handler fetches the existing record, shallow-merges the
patch over it and writes the merged document back in full; re-fetching
by the same numeric id returns that merged document, in which every
patched field shows the patch value and every other field is unchanged
from the existing record. -/
theorem update_by_id_roundtrip (st : Store) (numericId : Int) (body ex : Doc)
    (hfind : findOneById st numericId = some ex)
    (hn : numericId ≠ 0)
    (hbid : getField body "id" = none) :
    (patchArtworkNeDB st numericId body).2 = some (spreadMerge ex body) ∧
    (∀ k v, getField body k = some v →
        getField (spreadMerge ex body) k = some v) ∧
    (∀ k, getField body k = none →
        getField (spreadMerge ex body) k = getField ex k) := by
  have hfind2 : st.find? (docMatchesId numericId) = some ex := hfind
  have hex : docMatchesId numericId ex = true := List.find?_some hfind2
  have hexid : getField ex "id" = some (.vInt numericId) := by
    simpa [docMatchesId] using hex
  have hmid : getField (spreadMerge ex body) "id" = some (.vInt numericId) := by
    rw [getField_spreadMerge_of_none ex body "id" hbid, hexid]
  have hmatch : docMatchesId numericId (spreadMerge ex body) = true := by
    simp [docMatchesId, hmid]
  have hfind' : (replaceFirst st (docMatchesId numericId)
      (spreadMerge ex body)).find? (docMatchesId numericId)
      = some (spreadMerge ex body) :=
    find?_replaceFirst _ _ st ex hfind2 hmatch
  have hnorm : normalizeId true (spreadMerge ex body) = spreadMerge ex body := by
    simp [normalizeId, hmid, truthy, isStringVal, hn]
  refine ⟨?_, ?_, ?_⟩
  · simp only [patchArtworkNeDB, hfind]
    have : findOneById (updateOneById st numericId (spreadMerge ex body)) numericId
        = some (spreadMerge ex body) := hfind'
    simp [this, hnorm]
  · intro k v h; exact getField_spreadMerge_of_some ex body k v h
  · intro k h; exact getField_spreadMerge_of_none ex body k h

theorem update_by_id_roundtrip_witness :
    findOneById [[("id", Val.vInt 5), ("_id", Val.vStr "x"),
        ("title", Val.vStr "old"), ("medium", Val.vStr "oil")]] 5 =
      some [("id", Val.vInt 5), ("_id", Val.vStr "x"),
        ("title", Val.vStr "old"), ("medium", Val.vStr "oil")] ∧
    (5 : Int) ≠ 0 ∧
    getField [("title", Val.vStr "new")] "id" = none ∧
    (patchArtworkNeDB [[("id", Val.vInt 5), ("_id", Val.vStr "x"),
        ("title", Val.vStr "old"), ("medium", Val.vStr "oil")]] 5
        [("title", Val.vStr "new")]).2 =
      some (spreadMerge [("id", Val.vInt 5), ("_id", Val.vStr "x"),
        ("title", Val.vStr "old"), ("medium", Val.vStr "oil")]
        [("title", Val.vStr "new")]) ∧
    getField (spreadMerge [("id", Val.vInt 5), ("_id", Val.vStr "x"),
        ("title", Val.vStr "old"), ("medium", Val.vStr "oil")]
        [("title", Val.vStr "new")]) "title" = some (Val.vStr "new") ∧
    getField (spreadMerge [("id", Val.vInt 5), ("_id", Val.vStr "x"),
        ("title", Val.vStr "old"), ("medium", Val.vStr "oil")]
        [("title", Val.vStr "new")]) "medium" =
      getField [("id", Val.vInt 5), ("_id", Val.vStr "x"),
        ("title", Val.vStr "old"), ("medium", Val.vStr "oil")] "medium" := by
  have h := update_by_id_roundtrip
    [[("id", Val.vInt 5), ("_id", Val.vStr "x"),
      ("title", Val.vStr "old"), ("medium", Val.vStr "oil")]] 5
    [("title", Val.vStr "new")]
    [("id", Val.vInt 5), ("_id", Val.vStr "x"),
      ("title", Val.vStr "old"), ("medium", Val.vStr "oil")]
    (by decide) (by decide) (by decide)
  exact ⟨by decide, by decide, by decide, h.1,
    h.2.1 "title" (Val.vStr "new") (by decide), h.2.2 "medium" (by decide)⟩

/-! ## Singleton upsert routes (ArtistInfo / SiteSettings, NeDB backend) -/

/-- Response of a singleton-update route. -/
inductive SingletonResp where
  | ok (d : Doc)
  | serverError (msg : String)
deriving DecidableEq, Repr

/-- PATCH /api/admin/artist on the NeDB backend (server/routes, lines
575-591).  `ArtistInfo.findOne()` yields the first stored document.  When
none exists, `create(req.body)` inserts it (NeDB assigns the native key
`freshId`) and the response is the normalized new document.  When one
exists, the route runs `Object.assign(artist, req.body); await
artist.save()` — but NeDB's `findOne` returns a plain object with no
`save` method, so the call throws `TypeError: artist.save is not a
function`; the route's catch answers 500 and nothing is persisted. -/
def patchArtistNeDB (st : Store) (body : Doc) (freshId : String) :
    Store × SingletonResp :=
  match st.head? with
  | none =>
      let created := setField body "_id" (.vStr freshId)
      (st ++ [created], .ok (normalizeId true created))
  | some _ => (st, .serverError "Failed to update artist information")

/-- PUT /api/admin/settings on the NeDB backend (server/routes, lines
717-733): identical shape to `patchArtistNeDB`, including the
`settings.save()` TypeError on the update branch (this route returns the
raw document without `normalizeId`). -/
def putSettingsNeDB (st : Store) (body : Doc) (freshId : String) :
    Store × SingletonResp :=
  match st.head? with
  | none =>
      let created := setField body "_id" (.vStr freshId)
      (st ++ [created], .ok created)
  | some _ => (st, .serverError "Failed to update settings")

/-- C8 (code bug, NeDB backend): the first singleton-update call with an
empty collection creates exactly one document, but every further call
fails with a 500 — the plain NeDB document has no `save` method, so
`Object.assign(...); await artist.save()` throws — and leaves the store
unchanged: the patch is never applied, although the claim (and the
mongoose branch of the same route) says further calls update the stored
document.  The count does stay at 1, but only because the failing call
persists nothing. -/
theorem singleton_upsert_nedb_code_bug (b₁ b₂ : Doc) (fid₁ fid₂ : String) :
    ((patchArtistNeDB [] b₁ fid₁).1).length = 1 ∧
    (patchArtistNeDB (patchArtistNeDB [] b₁ fid₁).1 b₂ fid₂).1 =
      (patchArtistNeDB [] b₁ fid₁).1 ∧
    (patchArtistNeDB (patchArtistNeDB [] b₁ fid₁).1 b₂ fid₂).2 =
      .serverError "Failed to update artist information" ∧
    ((putSettingsNeDB [] b₁ fid₁).1).length = 1 ∧
    (putSettingsNeDB (putSettingsNeDB [] b₁ fid₁).1 b₂ fid₂).1 =
      (putSettingsNeDB [] b₁ fid₁).1 ∧
    (putSettingsNeDB (putSettingsNeDB [] b₁ fid₁).1 b₂ fid₂).2 =
      .serverError "Failed to update settings" := by
  simp [patchArtistNeDB, putSettingsNeDB]

/-! ## Admin user deletion and admin auto-provisioning -/

/-- Response kinds of DELETE /api/admin/users/:id. -/
inductive UserDeleteResp where
  | invalidId
  | notFound
  | selfDeleteError
  | deleted
deriving DecidableEq, Repr

/-- `allUsers.find(u => hashStringToNumber(u._id) === targetId)`: the
scan matching a user's hashed native key against the requested numeric
id (a NeDB `_id` is always a string; other shapes never match the strict
`===`). -/
def hashIdMatches (targetId : Int) (d : Doc) : Bool :=
  match getField d "_id" with
  | some (.vStr s) => hashStringToNumber s == targetId
  | _ => false

/-- DELETE /api/admin/users/:id, NeDB branch (server/routes, lines
269-320): parse the numeric path id (`none` models `NaN`, answered 400),
resolve it by scanning all users and comparing `_id` hashes (404 when no
user hashes to it), reject with 400 when the resolved record's email is
the authenticated requester's own, otherwise delete that record by its
native key. -/
def deleteUserNeDB (st : Store) (requesterEmail : String)
    (idParam : Option Int) : Store × UserDeleteResp :=
  match idParam with
  | none => (st, .invalidId)
  | some targetId =>
      match st.find? (hashIdMatches targetId) with
      | none => (st, .notFound)
      | some target =>
          if getField target "email" == some (.vStr requesterEmail) then
            (st, .selfDeleteError)
          else
            (removeFirst st (fun u => getField u "_id" == getField target "_id"),
             .deleted)

/-- The admin auto-provisioning step of `initNeDB` (server/nedb.ts,
lines 116-134): if no user with the fixed admin email exists, insert one
with role `admin` (NeDB assigns the native key `freshId`). -/
def ensureAdminUser (st : Store) (passwordHash : String) (freshId : String) :
    Store :=
  if st.any (fun u =>
      getField u "email" == some (.vStr "admin@quillyourdream.com")) then st
  else
    st ++ [[("email", Val.vStr "admin@quillyourdream.com"),
            ("password", Val.vStr passwordHash),
            ("role", Val.vStr "admin"),
            ("_id", Val.vStr freshId)]]

/-- All stored users have pairwise distinct native keys (NeDB enforces
unique `_id`). -/
def NodupIds (st : Store) : Prop :=
  (st.map (fun d => getField d "_id")).Nodup

/-- C9: when the scanned numeric-id resolution of a delete request
returns the authenticated requester's own user record — whichever record
the hash comparison actually resolved to — the handler rejects with an
error and removes nothing; in general the delete handler preserves the
existence of the requesting admin's record (given NeDB's unique native
keys), and the startup provisioning step creates an admin user on a
fresh store, so at least one admin user exists at all times. -/
theorem self_delete_prevention (st : Store) (requesterEmail : String)
    (targetId : Int) (target : Doc)
    (hfind : st.find? (hashIdMatches targetId) = some target)
    (hself : getField target "email" = some (.vStr requesterEmail)) :
    deleteUserNeDB st requesterEmail (some targetId) =
      (st, .selfDeleteError) ∧
    (∀ (st' : Store) (em : String) (tid : Option Int) (u : Doc),
        u ∈ st' → getField u "email" = some (.vStr em) →
        getField u "role" = some (.vStr "admin") → NodupIds st' →
        ∃ w ∈ (deleteUserNeDB st' em tid).1,
          getField w "role" = some (.vStr "admin")) ∧
    (∀ (pw fid : String),
        ∃ w ∈ ensureAdminUser [] pw fid,
          getField w "role" = some (.vStr "admin")) := by
  refine ⟨?_, ?_, ?_⟩
  · simp [deleteUserNeDB, hfind, hself]
  · intro st' em tid u hu hue hur hnd
    match tid with
    | none => exact ⟨u, by simpa [deleteUserNeDB] using hu, hur⟩
    | some t =>
        cases hf : st'.find? (hashIdMatches t) with
        | none => exact ⟨u, by simpa [deleteUserNeDB, hf] using hu, hur⟩
        | some tgt =>
            cases hc : (getField tgt "email" == some (Val.vStr em)) with
            | true => exact ⟨u, by simpa [deleteUserNeDB, hf, hc] using hu, hur⟩
            | false =>
                have htgt_mem : tgt ∈ st' := List.mem_of_find?_eq_some hf
                by_cases heq : getField u "_id" = getField tgt "_id"
                · have hut : u = tgt :=
                    List.inj_on_of_nodup_map hnd hu htgt_mem heq
                  rw [← hut, hue] at hc
                  simp at hc
                · have hpu : (getField u "_id" == getField tgt "_id") = false := by
                    simpa using heq
                  refine ⟨u, ?_, hur⟩
                  simp only [deleteUserNeDB, hf, hc]
                  exact mem_removeFirst _ st' u hu hpu
  · intro pw fid
    refine ⟨[("email", Val.vStr "admin@quillyourdream.com"),
             ("password", Val.vStr pw), ("role", Val.vStr "admin"),
             ("_id", Val.vStr fid)], ?_, ?_⟩
    · simp [ensureAdminUser]
    · simp [getField, List.find?]

theorem self_delete_prevention_witness :
    ([[("_id", Val.vStr "a"), ("email", Val.vStr "admin@quillyourdream.com"),
        ("role", Val.vStr "admin")]] : Store).find? (hashIdMatches 97) =
      some [("_id", Val.vStr "a"),
        ("email", Val.vStr "admin@quillyourdream.com"),
        ("role", Val.vStr "admin")] ∧
    getField [("_id", Val.vStr "a"),
        ("email", Val.vStr "admin@quillyourdream.com"),
        ("role", Val.vStr "admin")] "email" =
      some (Val.vStr "admin@quillyourdream.com") ∧
    deleteUserNeDB [[("_id", Val.vStr "a"),
        ("email", Val.vStr "admin@quillyourdream.com"),
        ("role", Val.vStr "admin")]] "admin@quillyourdream.com" (some 97) =
      ([[("_id", Val.vStr "a"), ("email", Val.vStr "admin@quillyourdream.com"),
        ("role", Val.vStr "admin")]], .selfDeleteError) := by
  have h := self_delete_prevention [[("_id", Val.vStr "a"),
      ("email", Val.vStr "admin@quillyourdream.com"),
      ("role", Val.vStr "admin")]] "admin@quillyourdream.com" 97
    [("_id", Val.vStr "a"), ("email", Val.vStr "admin@quillyourdream.com"),
      ("role", Val.vStr "admin")] (by decide) (by decide)
  exact ⟨by decide, by decide, h.1⟩

/-! ## Rebuild orchestrator (server/rebuild.ts)

`triggerRebuild` is embedded as a function of the orchestrator state
(module flags `isRebuilding` / `lastRebuildTime`), the clock, the
NODE_ENV production flag, a fault-injection environment describing the
outcome of each effectful step, and an abstract filesystem with the
three directory slots the code touches (`dist/public`, `dist/public.old`,
`dist/public.new`), each holding an opaque tree or nothing.  A failed
build command may leave a partial `public.new`; claims only concern the
live and backup slots, so the temp slot is left as-is on those paths.
-/

/-- Module-level orchestrator flags (`isRebuilding`, `lastRebuildTime`). -/
structure OrchState where
  isRebuilding : Bool
  lastRebuildTime : Int
deriving DecidableEq, Repr

/-- The three directory slots under `dist/`: the live `public`, the
backup `public.old` and the freshly built `public.new`; `some t` is a
complete directory tree (opaque id), `none` an absent path. -/
structure FS where
  live : Option Nat
  backup : Option Nat
  temp : Option Nat
deriving DecidableEq, Repr

/-- The `{ success, message }` object `triggerRebuild` resolves with. -/
structure RebuildResult where
  success : Bool
  message : String
deriving DecidableEq, Repr

/-- Outcomes of the effectful steps of one rebuild attempt. -/
structure Env where
  viteBuildOk : Bool
  viteErrMsg : String
  prerenderOk : Bool
  prerenderErrMsg : String
  buildOutput : Option Nat
  rmBackupFails : Bool
  rename1Fails : Bool
  rename1ErrMsg : String
  rename2Fails : Bool
  rename2ErrMsg : String
  rollbackFails : Bool
deriving DecidableEq, Repr

def REBUILD_COOLDOWN : Int := 10000

/-- JS `Math.ceil(a / b)` for integer `a` and positive integer `b`. -/
def jsCeilDiv (a b : Int) : Int := -((-a).fdiv b)

/-- The `Math.ceil((REBUILD_COOLDOWN - (now - lastRebuildTime)) / 1000)`
of the cooldown rejection message. -/
def cooldownRemainingSecs (now last : Int) : Int :=
  jsCeilDiv (REBUILD_COOLDOWN - (now - last)) 1000

def inProgressMessage : String :=
  "A rebuild is already in progress. Please wait."

def cooldownMessage (n : Int) : String :=
  "Please wait " ++ toString n ++ "s before rebuilding again."

def devModeMessage : String :=
  "Rebuilds only run in production mode. In development, changes are reflected automatically via HMR."

def successMessage : String :=
  "Static site rebuilt successfully. New version is now live!"

def fatalRollbackMessage : String :=
  "Swap and rollback both failed. Manual intervention may be required."

/-- `fs/promises.rename(src, dst)` on directory paths: fails on an
injected fault, when the source is absent (ENOENT), or when the
destination is an existing (non-empty) directory (ENOTEMPTY); otherwise
it atomically moves the tree, returning the new (src, dst) contents. -/
def renameOp (src dst : Option Nat) (fault : Bool) :
    Option (Option Nat × Option Nat) :=
  if fault then none
  else
    match src, dst with
    | some c, none => some (none, some c)
    | _, _ => none

/-- The `catch (swapError)` block (rebuild.ts lines 529-544) with
`swapSuccessful = false`: if the backup exists, rename it back into the
live path; a failing rollback rename throws the fatal message, a
successful one (or no backup) rethrows `Swap failed: ...`.  The value
returned is after the outer catch wraps the thrown message in
`Rebuild failed: ...`. -/
def rollbackSwap (env : Env) (fs : FS) (swapErrMsg : String) :
    FS × RebuildResult :=
  if fs.backup.isSome then
    match renameOp fs.backup fs.live env.rollbackFails with
    | some (b', l') =>
        ({ fs with backup := b', live := l' },
         ⟨false, "Rebuild failed: Swap failed: " ++ swapErrMsg⟩)
    | none =>
        (fs, ⟨false, "Rebuild failed: " ++ fatalRollbackMessage⟩)
  else
    (fs, ⟨false, "Rebuild failed: Swap failed: " ++ swapErrMsg⟩)

/-- The try-block of `triggerRebuild` (rebuild.ts lines 470-560): run
the two build commands into the temp slot, verify the new build exists,
remove a stale backup (failures swallowed), then the three-step swap:
rename live to backup when live exists, rename the new build into live,
and on success schedule the deferred backup deletion (not performed
synchronously, so the backup slot is left as-is).  Failures of either
rename divert into `rollbackSwap`; the pair returned is (filesystem,
resolved result after the outer catch). -/
def rebuildBody (env : Env) (fs : FS) : FS × RebuildResult :=
  if !env.viteBuildOk then
    (fs, ⟨false, "Rebuild failed: " ++ env.viteErrMsg⟩)
  else if !env.prerenderOk then
    (fs, ⟨false, "Rebuild failed: " ++ env.prerenderErrMsg⟩)
  else
    let fs0 : FS := { fs with temp := env.buildOutput }
    if fs0.temp.isNone then
      (fs0, ⟨false,
        "Rebuild failed: New build directory not found. Build may have failed."⟩)
    else
      let fs1 : FS :=
        if fs0.backup.isSome && !env.rmBackupFails then
          { fs0 with backup := none }
        else fs0
      if fs1.live.isSome then
        match renameOp fs1.live fs1.backup env.rename1Fails with
        | none => rollbackSwap env fs1 env.rename1ErrMsg
        | some (l', b') =>
            let fs2 : FS := { fs1 with live := l', backup := b' }
            match renameOp fs2.temp fs2.live env.rename2Fails with
            | none => rollbackSwap env fs2 env.rename2ErrMsg
            | some (t', l2) =>
                ({ fs2 with temp := t', live := l2 }, ⟨true, successMessage⟩)
      else
        match renameOp fs1.temp fs1.live env.rename2Fails with
        | none => rollbackSwap env fs1 env.rename2ErrMsg
        | some (t', l2) =>
            ({ fs1 with temp := t', live := l2 }, ⟨true, successMessage⟩)

/-- The synchronous guard section of `triggerRebuild` (lines 441-468):
reject while a rebuild is in flight, reject inside the cooldown window,
reject outside production mode; otherwise set `isRebuilding` and record
`lastRebuildTime = now`. -/
def rebuildGuard (st : OrchState) (now : Int) (isProduction : Bool) :
    OrchState × Option RebuildResult :=
  if st.isRebuilding then
    (st, some ⟨false, inProgressMessage⟩)
  else if now - st.lastRebuildTime < REBUILD_COOLDOWN then
    (st, some ⟨false,
      cooldownMessage (cooldownRemainingSecs now st.lastRebuildTime)⟩)
  else if !isProduction then
    (st, some ⟨false, devModeMessage⟩)
  else
    ({ isRebuilding := true, lastRebuildTime := now }, none)

/-- `triggerRebuild`: guard, then try-body, then the `finally` clearing
`isRebuilding`.  The function never throws — every failure is caught and
returned as `{ success: false, message }`. -/
def triggerRebuild (st : OrchState) (now : Int) (isProduction : Bool)
    (env : Env) (fs : FS) : OrchState × FS × RebuildResult :=
  match rebuildGuard st now isProduction with
  | (st', some r) => (st', fs, r)
  | (st', none) =>
      let body := rebuildBody env fs
      ({ st' with isRebuilding := false }, body.1, body.2)

/-- The HTTP body of POST /api/admin/rebuild. -/
structure HttpRebuildResponse where
  success : Bool
  message : String
deriving DecidableEq, Repr

/-- POST /api/admin/rebuild (server/routes, lines 797-806): `await
triggerRebuild()` with the resolved result discarded, then always
`res.json({ success: true, message: "Rebuild started" })`; the 500
branch is reachable only if `triggerRebuild` throws, which it never
does. -/
def rebuildEndpoint (st : OrchState) (now : Int) (isProduction : Bool)
    (env : Env) (fs : FS) : OrchState × FS × HttpRebuildResponse :=
  let r := triggerRebuild st now isProduction env fs
  (r.1, r.2.1, ⟨true, "Rebuild started"⟩)

theorem jsCeilDiv_pos_of_pos (a : Int) (ha : 0 < a) : 0 < jsCeilDiv a 1000 := by
  have hdm := Int.fdiv_add_fmod (-a) 1000
  have hm1 : 0 ≤ (-a).fmod 1000 := Int.fmod_nonneg' _ (by norm_num)
  have hm2 : (-a).fmod 1000 < 1000 := Int.fmod_lt_of_pos _ (by norm_num)
  unfold jsCeilDiv
  omega

/-- C5: an idle-state rebuild trigger arriving strictly inside the 10 s
cooldown window after the previous attempt's recorded timestamp (set at
attempt start, success or failure alike) is rejected synchronously with
the cooldown message carrying a non-negative (in fact positive)
remaining-seconds value; the orchestrator state and the filesystem are
untouched and no build step runs. -/
theorem rebuild_cooldown_rejection (st : OrchState) (now : Int)
    (isProduction : Bool) (env : Env) (fs : FS)
    (h1 : st.isRebuilding = false)
    (h2 : now - st.lastRebuildTime < REBUILD_COOLDOWN) :
    triggerRebuild st now isProduction env fs =
      (st, fs, ⟨false,
        cooldownMessage (cooldownRemainingSecs now st.lastRebuildTime)⟩) ∧
    0 ≤ cooldownRemainingSecs now st.lastRebuildTime := by
  constructor
  · simp [triggerRebuild, rebuildGuard, h1, h2]
  · have hp : 0 < cooldownRemainingSecs now st.lastRebuildTime := by
      unfold cooldownRemainingSecs REBUILD_COOLDOWN
      apply jsCeilDiv_pos_of_pos
      unfold REBUILD_COOLDOWN at h2
      omega
    omega

theorem rebuild_cooldown_rejection_witness :
    (⟨false, 0⟩ : OrchState).isRebuilding = false ∧
    (5000 : Int) - (⟨false, 0⟩ : OrchState).lastRebuildTime < REBUILD_COOLDOWN ∧
    triggerRebuild ⟨false, 0⟩ 5000 true
        ⟨true, "", true, "", some 1, false, false, "", false, "", false⟩
        ⟨some 0, none, none⟩ =
      (⟨false, 0⟩, ⟨some 0, none, none⟩,
        ⟨false, cooldownMessage (cooldownRemainingSecs 5000 0)⟩) ∧
    0 ≤ cooldownRemainingSecs 5000 0 := by
  have h := rebuild_cooldown_rejection ⟨false, 0⟩ 5000 true
    ⟨true, "", true, "", some 1, false, false, "", false, "", false⟩
    ⟨some 0, none, none⟩ rfl (by decide)
  exact ⟨rfl, by decide, h.1, h.2⟩

/-- C4: when a trigger passes the guard (idle, cooldown elapsed,
production), it alone enters the building phase — the guard sets
`isRebuilding` before any asynchronous step — and any second trigger
arriving while that flag is set is rejected synchronously with the
"already in progress" message, leaving the orchestrator state and every
directory slot untouched. -/
theorem rebuild_mutual_exclusion (st : OrchState) (now now₂ : Int)
    (isProd₂ : Bool) (env₂ : Env) (fs₂ : FS)
    (h1 : st.isRebuilding = false)
    (h2 : ¬ (now - st.lastRebuildTime < REBUILD_COOLDOWN)) :
    (rebuildGuard st now true).2 = none ∧
    (rebuildGuard st now true).1.isRebuilding = true ∧
    triggerRebuild (rebuildGuard st now true).1 now₂ isProd₂ env₂ fs₂ =
      ((rebuildGuard st now true).1, fs₂, ⟨false, inProgressMessage⟩) := by
  have hg : rebuildGuard st now true = (⟨true, now⟩, none) := by
    simp [rebuildGuard, h1, h2]
  refine ⟨by rw [hg], by rw [hg], ?_⟩
  rw [hg]
  simp [triggerRebuild, rebuildGuard]

theorem rebuild_mutual_exclusion_witness :
    (⟨false, 0⟩ : OrchState).isRebuilding = false ∧
    ¬ ((20000 : Int) - (⟨false, 0⟩ : OrchState).lastRebuildTime <
        REBUILD_COOLDOWN) ∧
    (rebuildGuard ⟨false, 0⟩ 20000 true).2 = none ∧
    (rebuildGuard ⟨false, 0⟩ 20000 true).1.isRebuilding = true ∧
    triggerRebuild (rebuildGuard ⟨false, 0⟩ 20000 true).1 20001 true
        ⟨true, "", true, "", some 1, false, false, "", false, "", false⟩
        ⟨some 0, none, none⟩ =
      ((rebuildGuard ⟨false, 0⟩ 20000 true).1, ⟨some 0, none, none⟩,
        ⟨false, inProgressMessage⟩) := by
  have h := rebuild_mutual_exclusion ⟨false, 0⟩ 20000 20001 true
    ⟨true, "", true, "", some 1, false, false, "", false, "", false⟩
    ⟨some 0, none, none⟩ rfl (by decide)
  exact ⟨rfl, by decide, h.1, h.2.1, h.2.2⟩

/-- C3: if the build phase fails — either build command exits non-zero
or the expected new output directory is missing — the attempt returns to
idle with a failure result and both the live slot and the backup slot of
the filesystem are exactly as before the attempt: no rename or removal
reaches the live path on the build-failure path. -/
theorem build_failure_leaves_live_untouched (st : OrchState) (now : Int)
    (env : Env) (fs : FS)
    (h1 : st.isRebuilding = false)
    (h2 : ¬ (now - st.lastRebuildTime < REBUILD_COOLDOWN))
    (h3 : env.viteBuildOk = false ∨ env.prerenderOk = false ∨
          env.buildOutput = none) :
    (triggerRebuild st now true env fs).2.1.live = fs.live ∧
    (triggerRebuild st now true env fs).2.1.backup = fs.backup ∧
    (triggerRebuild st now true env fs).2.2.success = false ∧
    (triggerRebuild st now true env fs).1 = ⟨false, now⟩ := by
  have hg : rebuildGuard st now true = (⟨true, now⟩, none) := by
    simp [rebuildGuard, h1, h2]
  rcases h3 with h3 | h3 | h3
  · simp [triggerRebuild, hg, rebuildBody, h3]
  · cases hv : env.viteBuildOk <;>
      simp [triggerRebuild, hg, rebuildBody, h3, hv]
  · cases hv : env.viteBuildOk <;> cases hpr : env.prerenderOk <;>
      simp [triggerRebuild, hg, rebuildBody, h3, hv, hpr]

theorem build_failure_leaves_live_untouched_witness :
    (⟨false, 0⟩ : OrchState).isRebuilding = false ∧
    ¬ ((20000 : Int) - (⟨false, 0⟩ : OrchState).lastRebuildTime <
        REBUILD_COOLDOWN) ∧
    (triggerRebuild ⟨false, 0⟩ 20000 true
        ⟨false, "build exploded", true, "", none, false, false, "", false, "", false⟩
        ⟨some 7, some 3, none⟩).2.1.live = some 7 ∧
    (triggerRebuild ⟨false, 0⟩ 20000 true
        ⟨false, "build exploded", true, "", none, false, false, "", false, "", false⟩
        ⟨some 7, some 3, none⟩).2.1.backup = some 3 ∧
    (triggerRebuild ⟨false, 0⟩ 20000 true
        ⟨false, "build exploded", true, "", none, false, false, "", false, "", false⟩
        ⟨some 7, some 3, none⟩).2.2.success = false ∧
    (triggerRebuild ⟨false, 0⟩ 20000 true
        ⟨false, "build exploded", true, "", none, false, false, "", false, "", false⟩
        ⟨some 7, some 3, none⟩).1 = ⟨false, 20000⟩ := by
  have h := build_failure_leaves_live_untouched ⟨false, 0⟩ 20000
    ⟨false, "build exploded", true, "", none, false, false, "", false, "", false⟩
    ⟨some 7, some 3, none⟩ rfl (by decide) (Or.inl rfl)
  exact ⟨rfl, by decide, h.1, h.2.1, h.2.2.1, h.2.2.2⟩

/-- C1: when the rename of the freshly built directory into the live
path fails after the live directory was successfully renamed to the
backup path, the orchestrator renames the backup back into the live
path, so the live slot again holds the pre-rebuild tree and the attempt
resolves as a failure with the orchestrator back in idle
(`isRebuilding = false`); if that rollback rename itself also fails, the
resolved message is the distinguished fatal one ("Swap and rollback both
failed. Manual intervention may be required.") rather than being
silently swallowed. -/
theorem swap_failure_rollback_restores_live (st : OrchState) (now : Int)
    (env : Env) (fs : FS) (L c : Nat)
    (h1 : st.isRebuilding = false)
    (h2 : ¬ (now - st.lastRebuildTime < REBUILD_COOLDOWN))
    (hb : env.viteBuildOk = true) (hpr : env.prerenderOk = true)
    (ho : env.buildOutput = some c)
    (hrm : env.rmBackupFails = false)
    (hr1 : env.rename1Fails = false) (hr2 : env.rename2Fails = true)
    (hl : fs.live = some L) :
    (env.rollbackFails = false →
        (triggerRebuild st now true env fs).2.1.live = some L ∧
        (triggerRebuild st now true env fs).2.2 =
          ⟨false, "Rebuild failed: Swap failed: " ++ env.rename2ErrMsg⟩) ∧
    (env.rollbackFails = true →
        (triggerRebuild st now true env fs).2.2 =
          ⟨false, "Rebuild failed: " ++ fatalRollbackMessage⟩) ∧
    (triggerRebuild st now true env fs).1.isRebuilding = false ∧
    (triggerRebuild st now true env fs).2.2.success = false := by
  have hg : rebuildGuard st now true = (⟨true, now⟩, none) := by
    simp [rebuildGuard, h1, h2]
  refine ⟨?_, ?_, ?_, ?_⟩
  · intro hrb
    cases hbk : fs.backup <;>
      simp [triggerRebuild, hg, rebuildBody, hb, hpr, ho, hrm, hr1, hr2,
        hl, hbk, renameOp, rollbackSwap, hrb]
  · intro hrb
    cases hbk : fs.backup <;>
      simp [triggerRebuild, hg, rebuildBody, hb, hpr, ho, hrm, hr1, hr2,
        hl, hbk, renameOp, rollbackSwap, hrb]
  · cases hbk : fs.backup <;> cases hrb : env.rollbackFails <;>
      simp [triggerRebuild, hg, rebuildBody, hb, hpr, ho, hrm, hr1, hr2,
        hl, hbk, renameOp, rollbackSwap, hrb]
  · cases hbk : fs.backup <;> cases hrb : env.rollbackFails <;>
      simp [triggerRebuild, hg, rebuildBody, hb, hpr, ho, hrm, hr1, hr2,
        hl, hbk, renameOp, rollbackSwap, hrb]

theorem swap_failure_rollback_restores_live_witness :
    (triggerRebuild ⟨false, 0⟩ 20000 true
        ⟨true, "", true, "", some 2, false, false, "", true, "boom", false⟩
        ⟨some 1, none, none⟩).2.1.live = some 1 ∧
    (triggerRebuild ⟨false, 0⟩ 20000 true
        ⟨true, "", true, "", some 2, false, false, "", true, "boom", false⟩
        ⟨some 1, none, none⟩).2.2 =
      ⟨false, "Rebuild failed: Swap failed: " ++ "boom"⟩ ∧
    (triggerRebuild ⟨false, 0⟩ 20000 true
        ⟨true, "", true, "", some 2, false, false, "", true, "boom", false⟩
        ⟨some 1, none, none⟩).1.isRebuilding = false ∧
    (triggerRebuild ⟨false, 0⟩ 20000 true
        ⟨true, "", true, "", some 2, false, false, "", true, "boom", true⟩
        ⟨some 1, none, none⟩).2.2 =
      ⟨false, "Rebuild failed: " ++ fatalRollbackMessage⟩ := by
  have hA := swap_failure_rollback_restores_live ⟨false, 0⟩ 20000
    ⟨true, "", true, "", some 2, false, false, "", true, "boom", false⟩
    ⟨some 1, none, none⟩ 1 2 rfl (by decide) rfl rfl rfl rfl rfl rfl rfl
  have hB := swap_failure_rollback_restores_live ⟨false, 0⟩ 20000
    ⟨true, "", true, "", some 2, false, false, "", true, "boom", true⟩
    ⟨some 1, none, none⟩ 1 2 rfl (by decide) rfl rfl rfl rfl rfl rfl rfl
  exact ⟨(hA.1 rfl).1, (hA.1 rfl).2, hA.2.2.1, hB.2.1 rfl⟩

/-- C10 (implicit): the rebuild endpoint discards the orchestrator's
resolved result entirely — for every orchestrator state, clock value,
environment and filesystem (so in particular when `triggerRebuild`
resolves with `success = false` for an in-progress, cooldown or
non-production rejection, or a failed rebuild), the HTTP response is
`{ success: true, message: "Rebuild started" }`, while the state and
filesystem effects are exactly those of `triggerRebuild`. -/
theorem rebuild_endpoint_always_reports_started :
    ∀ (st : OrchState) (now : Int) (isProduction : Bool) (env : Env)
      (fs : FS),
      (rebuildEndpoint st now isProduction env fs).2.2 =
        ⟨true, "Rebuild started"⟩ ∧
      (rebuildEndpoint st now isProduction env fs).1 =
        (triggerRebuild st now isProduction env fs).1 ∧
      (rebuildEndpoint st now isProduction env fs).2.1 =
        (triggerRebuild st now isProduction env fs).2.1 := by
  intro st now isProduction env fs
  exact ⟨rfl, rfl, rfl⟩
